import Mathlib

/-
Verification of the kinetic core of pet_twin.py: Arrhenius rate constants,
the catalyst adjustment rule, the four-species reaction ODE vector field,
the module-level simulation setup, and the result summary.  All real-valued
floating-point arithmetic of the source is modelled over ℝ.
-/

namespace PetTwin

/-- Concentration state vector (C_PET, C_EG, C_Oligomer, C_BHET), matching
the list `y = [C_PET, C_EG, C_Oligomer, C_BHET]` of pet_twin.py. -/
abbrev State := ℝ × ℝ × ℝ × ℝ

/-- Kinetic parameter tuple (A1, Ea1, A2, Ea2) of pet_twin.py. -/
abbrev Params := ℝ × ℝ × ℝ × ℝ

/-- Gas constant fixed inside get_k (line 19 of pet_twin.py). -/
noncomputable def R : ℝ := 8.314

/-- Arrhenius rate constant, from get_k (lines 17-20 of pet_twin.py):
`A * np.exp(-Ea / (R * T_kelvin))`. -/
noncomputable def get_k (T_kelvin A Ea : ℝ) : ℝ :=
  A * Real.exp (-Ea / (R * T_kelvin))

/-- ODE vector field, from reaction_model (lines 22-46 of pet_twin.py):
r1 = k1 * C_PET * C_EG, r2 = k2 * C_Oligomer * C_EG, and the returned
derivative list (-r1, -r1 - r2, r1 - r2, r2).  The time argument t is
accepted and ignored, exactly as in the source. -/
noncomputable def reaction_model (y : State) (t : ℝ) (T_kelvin : ℝ)
    (params : Params) : State :=
  let C_PET := y.1
  let C_EG := y.2.1
  let C_Oligomer := y.2.2.1
  let k1 := get_k T_kelvin params.1 params.2.1
  let k2 := get_k T_kelvin params.2.2.1 params.2.2.2
  let r1 := k1 * C_PET * C_EG
  let r2 := k2 * C_Oligomer * C_EG
  (-r1, -r1 - r2, r1 - r2, r2)

/-- Catalyst adjustment, from adjust_params_by_catalyst (lines 48-65 of
pet_twin.py): both pre-exponential factors are scaled by
(1 + cat_amount * efficiency_factor) with efficiency_factor = 2.0, and both
activation energies pass through unchanged. -/
noncomputable def adjust_params_by_catalyst (base_params : Params)
    (cat_amount : ℝ) : Params :=
  let efficiency_factor : ℝ := 2.0
  (base_params.1 * (1 + cat_amount * efficiency_factor),
   base_params.2.1,
   base_params.2.2.1 * (1 + cat_amount * efficiency_factor),
   base_params.2.2.2)

/-- Temperature conversion, from line 81 of pet_twin.py:
`T_kelvin = T_celsius + 273.15`. -/
noncomputable def T_kelvin_of (T_celsius : ℝ) : ℝ := T_celsius + 273.15

/-- Fixed initial PET concentration, line 96 of pet_twin.py. -/
noncomputable def C0_PET : ℝ := 1.0

/-- Initial state, lines 97-98 of pet_twin.py:
`[C0_PET, C0_PET * mol_ratio, 0.0, 0.0]`. -/
noncomputable def Initial_State (mol_ratio : ℝ) : State :=
  (C0_PET, C0_PET * mol_ratio, 0.0, 0.0)

/-- Base kinetic parameters, line 102 of pet_twin.py. -/
noncomputable def Base_Params : Params := (1e6, 80000, 5e5, 85000)

/-- Adjusted parameters, line 105 of pet_twin.py. -/
noncomputable def Real_Params (cat_percent : ℝ) : Params :=
  adjust_params_by_catalyst Base_Params cat_percent

/-- Uniform time grid, line 108 of pet_twin.py: `np.linspace(0, run_time, 100)`.
Modelled from the numpy documentation of linspace: with endpoint included,
sample i of 100 is `0 + i * (run_time - 0) / (100 - 1)`. -/
noncomputable def t_grid (run_time : ℝ) (i : Fin 100) : ℝ :=
  run_time * (i.val : ℝ) / 99

/-- Everything the module-level code computes from the four request scalars
before calling odeint (lines 81, 96-108 of pet_twin.py): T_kelvin, the
initial state, the adjusted parameters and the time grid.  The source is
straight-line code with no validation branch, so this function is total. -/
noncomputable def simulate_setup (T_celsius mol_ratio cat_percent run_time : ℝ) :
    ℝ × State × Params × (Fin 100 → ℝ) :=
  (T_kelvin_of T_celsius, Initial_State mol_ratio, Real_Params cat_percent,
   t_grid run_time)

/-- Final BHET concentration, line 129 of pet_twin.py: `solution[-1, 3]`,
the BHET column of the last row of the trajectory. -/
noncomputable def final_bhet {n : ℕ} (solution : Fin (n + 1) → State) : ℝ :=
  (solution (Fin.last n)).2.2.2

/-- Final conversion percentage, line 130 of pet_twin.py:
`(1.0 - solution[-1, 0] / C0_PET) * 100`. -/
noncomputable def final_conversion {n : ℕ} (solution : Fin (n + 1) → State) : ℝ :=
  (1.0 - (solution (Fin.last n)).1 / C0_PET) * 100

end PetTwin

namespace PetTwin

/-- Claim C1: for every T_kelvin > 0, A ≥ 0 and Ea, get_k returns exactly
A * exp(-Ea / (8.314 * T_kelvin)); as a pure function of its arguments it
has no side effects. -/
theorem C1_get_k_formula (T_kelvin A Ea : ℝ) (hT : 0 < T_kelvin) (hA : 0 ≤ A) :
    get_k T_kelvin A Ea = A * Real.exp (-Ea / (8.314 * T_kelvin)) := rfl

/-- Witness for C1_get_k_formula at T_kelvin = 500, A = 2, Ea = 80000. -/
theorem C1_get_k_formula_witness :
    get_k 500 2 80000 = 2 * Real.exp (-80000 / (8.314 * 500)) :=
  C1_get_k_formula 500 2 80000 (by norm_num) (by norm_num)

/-- Claim C2: for every state y, times t and tGen, T_kelvin > 0 and
parameters, reaction_model returns exactly (-r1, -r1 - r2, r1 - r2, r2)
with r1 = k1 * C_PET * C_EG and r2 = k2 * C_Oligomer * C_EG, and the result
does not depend on the time argument. -/
theorem C2_reaction_model_formula (y : State) (t tGen T_kelvin : ℝ)
    (params : Params) (hT : 0 < T_kelvin) :
    reaction_model y t T_kelvin params =
      (-(get_k T_kelvin params.1 params.2.1 * y.1 * y.2.1),
       -(get_k T_kelvin params.1 params.2.1 * y.1 * y.2.1) -
         get_k T_kelvin params.2.2.1 params.2.2.2 * y.2.2.1 * y.2.1,
       get_k T_kelvin params.1 params.2.1 * y.1 * y.2.1 -
         get_k T_kelvin params.2.2.1 params.2.2.2 * y.2.2.1 * y.2.1,
       get_k T_kelvin params.2.2.1 params.2.2.2 * y.2.2.1 * y.2.1) ∧
    reaction_model y t T_kelvin params = reaction_model y tGen T_kelvin params :=
  ⟨rfl, rfl⟩

/-- Witness for C2_reaction_model_formula at a concrete state, two distinct
non-monotonic times and T_kelvin = 500. -/
theorem C2_reaction_model_formula_witness :
    reaction_model (1, 4, 0, 0) 7 500 (1, 2, 3, 4) =
      (-(get_k 500 1 2 * 1 * 4),
       -(get_k 500 1 2 * 1 * 4) - get_k 500 3 4 * 0 * 4,
       get_k 500 1 2 * 1 * 4 - get_k 500 3 4 * 0 * 4,
       get_k 500 3 4 * 0 * 4) ∧
    reaction_model (1, 4, 0, 0) 7 500 (1, 2, 3, 4) =
      reaction_model (1, 4, 0, 0) 3 500 (1, 2, 3, 4) :=
  C2_reaction_model_formula (1, 4, 0, 0) 7 3 500 (1, 2, 3, 4) (by norm_num)

/-- Claim C3: at the vector-field level, the PET, Oligomer and BHET
derivatives returned by reaction_model sum to zero exactly, and whenever
all four concentrations and both rate constants are non-negative the EG
derivative is non-positive. -/
theorem C3_mass_conservation (y : State) (t T_kelvin : ℝ) (params : Params)
    (hT : 0 < T_kelvin) :
    (reaction_model y t T_kelvin params).1 +
      (reaction_model y t T_kelvin params).2.2.1 +
      (reaction_model y t T_kelvin params).2.2.2 = 0 ∧
    (0 ≤ y.1 → 0 ≤ y.2.1 → 0 ≤ y.2.2.1 → 0 ≤ y.2.2.2 →
      0 ≤ get_k T_kelvin params.1 params.2.1 →
      0 ≤ get_k T_kelvin params.2.2.1 params.2.2.2 →
      (reaction_model y t T_kelvin params).2.1 ≤ 0) := by
  constructor
  · show -(get_k T_kelvin params.1 params.2.1 * y.1 * y.2.1) +
      (get_k T_kelvin params.1 params.2.1 * y.1 * y.2.1 -
        get_k T_kelvin params.2.2.1 params.2.2.2 * y.2.2.1 * y.2.1) +
      get_k T_kelvin params.2.2.1 params.2.2.2 * y.2.2.1 * y.2.1 = 0
    ring
  · intro h1 h2 h3 _h4 hk1 hk2
    show -(get_k T_kelvin params.1 params.2.1 * y.1 * y.2.1) -
      get_k T_kelvin params.2.2.1 params.2.2.2 * y.2.2.1 * y.2.1 ≤ 0
    have hr1 : 0 ≤ get_k T_kelvin params.1 params.2.1 * y.1 * y.2.1 :=
      mul_nonneg (mul_nonneg hk1 h1) h2
    have hr2 : 0 ≤ get_k T_kelvin params.2.2.1 params.2.2.2 * y.2.2.1 * y.2.1 :=
      mul_nonneg (mul_nonneg hk2 h3) h2
    linarith

/-- Witness for C3_mass_conservation at y = (1, 4, 0.5, 0.2), t = 0,
T_kelvin = 500, params = (1, 0, 1, 0); both rate constants are then
exp 0 = 1 ≥ 0 and the EG derivative is non-positive. -/
theorem C3_mass_conservation_witness :
    (reaction_model (1, 4, 0.5, 0.2) 0 500 (1, 0, 1, 0)).1 +
      (reaction_model (1, 4, 0.5, 0.2) 0 500 (1, 0, 1, 0)).2.2.1 +
      (reaction_model (1, 4, 0.5, 0.2) 0 500 (1, 0, 1, 0)).2.2.2 = 0 ∧
    (reaction_model (1, 4, 0.5, 0.2) 0 500 (1, 0, 1, 0)).2.1 ≤ 0 := by
  have h := C3_mass_conservation (1, 4, 0.5, 0.2) 0 500 (1, 0, 1, 0) (by norm_num)
  exact ⟨h.1, h.2 (by norm_num) (by norm_num) (by norm_num) (by norm_num)
    (by simp [get_k]) (by simp [get_k])⟩

/-- Claim C4: for every base tuple and catalyst dosage c ≥ 0,
adjust_params_by_catalyst returns exactly
(A1 * (1 + c * 2.0), Ea1, A2 * (1 + c * 2.0), Ea2). -/
theorem C4_adjust_formula (A1 Ea1 A2 Ea2 c : ℝ) (hc : 0 ≤ c) :
    adjust_params_by_catalyst (A1, Ea1, A2, Ea2) c =
      (A1 * (1 + c * 2.0), Ea1, A2 * (1 + c * 2.0), Ea2) := rfl

/-- Witness for C4_adjust_formula at base (1e6, 80000, 5e5, 85000) and
dosage 0.5. -/
theorem C4_adjust_formula_witness :
    adjust_params_by_catalyst (1e6, 80000, 5e5, 85000) 0.5 =
      (1e6 * (1 + 0.5 * 2.0), 80000, 5e5 * (1 + 0.5 * 2.0), 85000) :=
  C4_adjust_formula 1e6 80000 5e5 85000 0.5 (by norm_num)

/-- Claim C5: with positive base pre-exponential factors and dosages
c2 > c1 ≥ 0, the adjusted A1 at dosage c2 strictly exceeds the adjusted A1
at dosage c1, and the returned activation energies equal the base values
at both dosages. -/
theorem C5_catalyst_monotone (A1 Ea1 A2 Ea2 c1 c2 : ℝ)
    (hA1 : 0 < A1) (hA2 : 0 < A2) (hc1 : 0 ≤ c1) (h12 : c1 < c2) :
    (adjust_params_by_catalyst (A1, Ea1, A2, Ea2) c1).1 <
      (adjust_params_by_catalyst (A1, Ea1, A2, Ea2) c2).1 ∧
    (adjust_params_by_catalyst (A1, Ea1, A2, Ea2) c1).2.1 = Ea1 ∧
    (adjust_params_by_catalyst (A1, Ea1, A2, Ea2) c1).2.2.2 = Ea2 ∧
    (adjust_params_by_catalyst (A1, Ea1, A2, Ea2) c2).2.1 = Ea1 ∧
    (adjust_params_by_catalyst (A1, Ea1, A2, Ea2) c2).2.2.2 = Ea2 := by
  refine ⟨?_, rfl, rfl, rfl, rfl⟩
  show A1 * (1 + c1 * 2.0) < A1 * (1 + c2 * 2.0)
  nlinarith

/-- Witness for C5_catalyst_monotone at base (1e6, 80000, 5e5, 85000),
dosages 0 and 2. -/
theorem C5_catalyst_monotone_witness :
    (adjust_params_by_catalyst (1e6, 80000, 5e5, 85000) 0).1 <
      (adjust_params_by_catalyst (1e6, 80000, 5e5, 85000) 2).1 ∧
    (adjust_params_by_catalyst (1e6, 80000, 5e5, 85000) 0).2.1 = 80000 ∧
    (adjust_params_by_catalyst (1e6, 80000, 5e5, 85000) 0).2.2.2 = 85000 ∧
    (adjust_params_by_catalyst (1e6, 80000, 5e5, 85000) 2).2.1 = 80000 ∧
    (adjust_params_by_catalyst (1e6, 80000, 5e5, 85000) 2).2.2.2 = 85000 :=
  C5_catalyst_monotone 1e6 80000 5e5 85000 0 2 (by norm_num) (by norm_num)
    (by norm_num) (by norm_num)

/-- Counterexample to claim C6 as stated: at A = 0 (allowed by A ≥ 0),
Ea = 1 > 0 and temperatures 1 < 2, get_k is 0 at both temperatures, so it
is not strictly increasing in T. -/
theorem C6_counterexample :
    (0:ℝ) < 1 ∧ (1:ℝ) < 2 ∧ (0:ℝ) ≤ 0 ∧ (0:ℝ) < 1 ∧
      ¬ get_k 1 0 1 < get_k 2 0 1 := by
  refine ⟨by norm_num, by norm_num, le_refl 0, by norm_num, ?_⟩
  simp [get_k]

/-- Claim C6 amended: for T > 0, A ≥ 0, Ea ≥ 0, get_k is non-negative, and
it is strictly increasing in T when additionally A > 0 (not merely A ≥ 0)
and Ea > 0. -/
theorem C6_amended_monotone (T1 T2 A Ea : ℝ) (hT1 : 0 < T1) (hA : 0 ≤ A)
    (hEa : 0 ≤ Ea) :
    0 ≤ get_k T1 A Ea ∧
    (0 < A → 0 < Ea → T1 < T2 → get_k T1 A Ea < get_k T2 A Ea) := by
  have hR : (0:ℝ) < R := by norm_num [R]
  constructor
  · exact mul_nonneg hA (le_of_lt (Real.exp_pos _))
  · intro hApos hEapos h12
    have hRT1 : 0 < R * T1 := mul_pos hR hT1
    have hRT : R * T1 < R * T2 := by nlinarith
    have hdiv : Ea / (R * T2) < Ea / (R * T1) :=
      div_lt_div_of_pos_left hEapos hRT1 hRT
    have hexp : Real.exp (-Ea / (R * T1)) < Real.exp (-Ea / (R * T2)) := by
      apply Real.exp_lt_exp.mpr
      rw [neg_div, neg_div]
      exact neg_lt_neg hdiv
    exact mul_lt_mul_of_pos_left hexp hApos

/-- Witness for C6_amended_monotone at T1 = 1, T2 = 2, A = 1, Ea = 1. -/
theorem C6_amended_monotone_witness :
    0 ≤ get_k 1 1 1 ∧
    ((0:ℝ) < 1 → (0:ℝ) < 1 → (1:ℝ) < 2 → get_k 1 1 1 < get_k 2 1 1) :=
  C6_amended_monotone 1 2 1 1 (by norm_num) (by norm_num) (by norm_num)

/-- Claim C7: for every request, the module-level setup computes
T_kelvin = T_celsius + 273.15, initial state (1.0, 1.0 * mol_ratio, 0, 0),
parameters obtained by adjusting the base tuple (1e6, 80000, 5e5, 85000)
by the catalyst dosage, and a 100-point uniform grid whose first point is
0, whose last point is run_time, and whose consecutive points differ by
run_time / 99. -/
theorem C7_simulator_setup (T_celsius mol_ratio cat_percent run_time : ℝ) :
    T_kelvin_of T_celsius = T_celsius + 273.15 ∧
    Initial_State mol_ratio = (1.0, 1.0 * mol_ratio, 0.0, 0.0) ∧
    Real_Params cat_percent =
      adjust_params_by_catalyst (1e6, 80000, 5e5, 85000) cat_percent ∧
    t_grid run_time 0 = 0 ∧
    t_grid run_time (Fin.last 99) = run_time ∧
    ∀ i : Fin 99, t_grid run_time i.succ - t_grid run_time i.castSucc =
      run_time / 99 := by
  refine ⟨rfl, rfl, rfl, ?_, ?_, ?_⟩
  · simp [t_grid]
  · show run_time * ((Fin.last 99).val : ℝ) / 99 = run_time
    rw [Fin.val_last]
    push_cast
    ring_nf
  · intro i
    show run_time * ((i.succ).val : ℝ) / 99 -
      run_time * ((i.castSucc).val : ℝ) / 99 = run_time / 99
    rw [Fin.val_succ, Fin.coe_castSucc]
    push_cast
    ring

/-- Claim C8: final_bhet reads the BHET component of the last trajectory
sample and final_conversion is (1 - C_PET_final / C0_PET) * 100 from the
PET component of the last sample; as pure projections neither mutates the
trajectory. -/
theorem C8_result_summary {n : ℕ} (solution : Fin (n + 1) → State) :
    final_bhet solution = (solution (Fin.last n)).2.2.2 ∧
    final_conversion solution =
      (1 - (solution (Fin.last n)).1 / C0_PET) * 100 := by
  refine ⟨rfl, ?_⟩
  norm_num [final_conversion]

/-- Counterexample to claim C9 as stated: at temperature -300 °C, which is
below absolute zero, the module-level computation does not reject the
request; it proceeds to build the complete odeint input — an unphysical
T_kelvin of -26.85, the initial state, the adjusted parameters and the
full time grid.  The source (lines 93-111 of pet_twin.py) is straight-line
code with no validation branch at all. -/
theorem C9_counterexample :
    (-300 : ℝ) < -273.15 ∧
    (simulate_setup (-300) 4 0.5 180).1 = -26.85 ∧
    (simulate_setup (-300) 4 0.5 180).2.1 = (1, 4, 0, 0) ∧
    (simulate_setup (-300) 4 0.5 180).2.2.1 =
      (2000000, 80000, 1000000, 85000) ∧
    (simulate_setup (-300) 4 0.5 180).2.2.2 (Fin.last 99) = 180 := by
  refine ⟨by norm_num, by norm_num [simulate_setup, T_kelvin_of], ?_, ?_, ?_⟩
  · show Initial_State 4 = (1, 4, 0, 0)
    norm_num [Initial_State, C0_PET]
  · show Real_Params 0.5 = (2000000, 80000, 1000000, 85000)
    norm_num [Real_Params, adjust_params_by_catalyst, Base_Params]
  · show t_grid 180 (Fin.last 99) = 180
    rw [t_grid, Fin.val_last]
    norm_num

/-- Claim C9 amended: the module-level computation performs no input
validation of its own; for every request, in-domain or not, it
unconditionally computes the Kelvin temperature, the initial state, the
adjusted parameters and the time grid and hands them to the integrator.
The documented input ranges are enforced only by the UI widget bounds,
outside this computation. -/
theorem C9_amended_no_validation (T_celsius mol_ratio cat_percent run_time : ℝ) :
    (simulate_setup T_celsius mol_ratio cat_percent run_time).1 =
      T_celsius + 273.15 ∧
    (simulate_setup T_celsius mol_ratio cat_percent run_time).2.1 =
      (1.0, 1.0 * mol_ratio, 0.0, 0.0) ∧
    (simulate_setup T_celsius mol_ratio cat_percent run_time).2.2.1 =
      adjust_params_by_catalyst Base_Params cat_percent ∧
    ∀ i : Fin 100, (simulate_setup T_celsius mol_ratio cat_percent run_time).2.2.2 i =
      run_time * (i.val : ℝ) / 99 :=
  ⟨rfl, rfl, rfl, fun _ => rfl⟩

/-- Claim C10: adjust_params_by_catalyst scales both pre-exponential
factors by the same factor, so with A2 ≠ 0 and 1 + c * 2.0 ≠ 0 the ratio
of adjusted factors equals the base ratio A1 / A2, and at any fixed
temperature the ratio k1 / k2 of the two rate constants computed from the
adjusted parameters equals the ratio computed from the base parameters —
catalyst dosage never changes relative selectivity. -/
theorem C10_selectivity_invariant (A1 Ea1 A2 Ea2 c T_kelvin : ℝ)
    (hA2 : A2 ≠ 0) (hc : 1 + c * 2.0 ≠ 0) :
    (adjust_params_by_catalyst (A1, Ea1, A2, Ea2) c).1 /
      (adjust_params_by_catalyst (A1, Ea1, A2, Ea2) c).2.2.1 = A1 / A2 ∧
    get_k T_kelvin (adjust_params_by_catalyst (A1, Ea1, A2, Ea2) c).1 Ea1 /
      get_k T_kelvin (adjust_params_by_catalyst (A1, Ea1, A2, Ea2) c).2.2.1 Ea2 =
      get_k T_kelvin A1 Ea1 / get_k T_kelvin A2 Ea2 := by
  have he1 : Real.exp (-Ea1 / (R * T_kelvin)) ≠ 0 := Real.exp_ne_zero _
  have he2 : Real.exp (-Ea2 / (R * T_kelvin)) ≠ 0 := Real.exp_ne_zero _
  constructor
  · show A1 * (1 + c * 2.0) / (A2 * (1 + c * 2.0)) = A1 / A2
    rw [mul_div_mul_right _ _ hc]
  · show A1 * (1 + c * 2.0) * Real.exp (-Ea1 / (R * T_kelvin)) /
      (A2 * (1 + c * 2.0) * Real.exp (-Ea2 / (R * T_kelvin))) =
      A1 * Real.exp (-Ea1 / (R * T_kelvin)) /
        (A2 * Real.exp (-Ea2 / (R * T_kelvin)))
    field_simp
    ring

/-- Witness for C10_selectivity_invariant at base (6, 1, 3, 2), dosage 1 and
T_kelvin = 500. -/
theorem C10_selectivity_invariant_witness :
    (adjust_params_by_catalyst (6, 1, 3, 2) 1).1 /
      (adjust_params_by_catalyst (6, 1, 3, 2) 1).2.2.1 = 6 / 3 ∧
    get_k 500 (adjust_params_by_catalyst (6, 1, 3, 2) 1).1 1 /
      get_k 500 (adjust_params_by_catalyst (6, 1, 3, 2) 1).2.2.1 2 =
      get_k 500 6 1 / get_k 500 3 2 :=
  C10_selectivity_invariant 6 1 3 2 1 500 (by norm_num) (by norm_num)

end PetTwin
